import Mathlib

/-!
Shallow embedding of the bee-API repository's core: the authenticated
hives router (src/unnamed/part_001, second document, lines 427-1096) and
the queens router (src/queens.js).  Entities live in a key-addressed
document store, modelled as association lists from numeric ids to entity
records.  JavaScript `throw new Error(msg)` is modelled as
`Except.error (JsErr.jsError msg)`; the HTTP layer string-matches these
messages exactly as the route handlers' catch blocks do.
-/

namespace BeeApi

/-- A fault raised by the JavaScript code: either an explicit
`throw new Error(msg)` or a runtime `TypeError`. -/
inductive JsErr where
  | jsError (msg : String)
  | typeErr (msg : String)
  deriving DecidableEq, Repr

/-- Message of `new Error('invalid characters')` in `verifyAttribute`. -/
def msgInvalidChars : String := "invalid characters"

/-- Message thrown by `verifyBeekeeper` when the hive is absent. -/
def msgNotFoundHQ : String := "Hive and/or queen not found"

/-- Message thrown by `verifyBeekeeper` on an owner mismatch. -/
def msgDifferentOwner : String := "Hive has a different owner"

/-- Message thrown by `assignQueen` when the queen already has a hive. -/
def msgAlreadyAssigned : String := "Queen is already assigned"

/-- Message thrown by `removeQueen` when the pair is not linked. -/
def msgNotAssociated : String := "Queen is not associated with this hive"

/-- Message thrown by `getQueen`/`deleteQueen` when the queen is absent. -/
def msgQueenNotFound : String := "Queen not found"

/-- TypeError raised when `.then` is invoked on the `undefined` value
returned by `verifyAttribute` (src/queens.js lines 87 and 193). -/
def msgThenOfUndefined : String := "verifyAttribute(...).then is not a function"

/-- TypeError raised by `queens[0].length()` in `getQueens`
(src/queens.js line 116): `length` is a number, not a function. -/
def msgLengthNotFunction : String := "queens[0].length is not a function"

/-- TypeError raised by `queen.map(ds.fromDatastore)` when the datastore
returned `[undefined]` (missing entity) in `patchQueen`. -/
def msgEntityUndefined : String := "Cannot read properties of undefined"

/-- Hive entity as saved by the authenticated hives router: data fields
`hiveName`, `structureType`, `colonySize`, `beekeeper` (owner subject id)
and `queen` (the embedded queen link's id, or null). -/
structure HiveE where
  hiveName : String
  structureType : String
  colonySize : Int
  beekeeper : String
  queen : Option Nat
  deriving DecidableEq, Repr

/-- Queen entity as saved by src/queens.js: data fields `name`,
`species`, `age` and `hive` (the embedded hive link's id, or null). -/
structure QueenE where
  name : String
  species : String
  age : Int
  hive : Option Nat
  deriving DecidableEq, Repr

/-- The key-addressed document store: one table per entity kind, plus a
counter standing for Datastore's fresh-key allocation. -/
structure Store where
  hives : List (Nat × HiveE)
  queens : List (Nat × QueenE)
  nextHiveId : Nat
  nextQueenId : Nat
  deriving DecidableEq, Repr

/-- `datastore.get(key)`: first binding of the key, if any. -/
def aget {α : Type} (l : List (Nat × α)) (k : Nat) : Option α :=
  (l.find? (fun p => p.1 == k)).map Prod.snd

/-- `datastore.save({key, data})`: upsert the binding for the key. -/
def aput {α : Type} (l : List (Nat × α)) (k : Nat) (v : α) : List (Nat × α) :=
  (k, v) :: l.filter (fun p => p.1 != k)

/-- `datastore.delete(key)`: drop every binding of the key. -/
def adel {α : Type} (l : List (Nat × α)) (k : Nat) : List (Nat × α) :=
  l.filter (fun p => p.1 != k)

/-- Message thrown by `verifyJwt` when authentication fails
(part_001:470).  The model functions below take the verified subject id
directly, identity verification being an external collaborator, so this
error is only produced by the HTTP-layer catch tables. -/
def msgMissingJwt : String := "Missing or invalid JWT"

/-- Character class of the regex `^[a-zA-Z0-9 ]+$` used by
`verifyAttribute` (part_001:506, src/queens.js:53): the three literal
ranges plus the space. -/
def regexCharClass (c : Char) : Bool :=
  (('a' : Char) ≤ c && c ≤ ('z' : Char)) ||
  (('A' : Char) ≤ c && c ≤ ('Z' : Char)) ||
  (('0' : Char) ≤ c && c ≤ ('9' : Char)) || c == (' ' : Char)

/-- `valid.test(s)` for `^[a-zA-Z0-9 ]+$`: at least one character, and
every character is in the class. -/
def regexTestValid (s : String) : Bool :=
  !s.isEmpty && s.toList.all regexCharClass

/-- `verifyAttribute` (part_001:502-513, src/queens.js:49-60): returns
`undefined` (modelled `Unit`) when the regex matches, otherwise throws
`Error('invalid characters')`.  Pure: it reads and writes no state. -/
def verifyAttribute (attrText : String) : Except JsErr Unit :=
  if regexTestValid attrText then .ok () else .error (.jsError msgInvalidChars)

/-- `verifyBeekeeper` (part_001:480-493): load the hive by key; if
absent throw `Error('Hive and/or queen not found')`; if
`hive.beekeeper !== beekeeperId` throw
`Error('Hive has a different owner')`; else return the hive. -/
def verifyBeekeeper (beekeeperId : String) (hiveId : Nat) (s : Store) :
    Except JsErr HiveE :=
  match aget s.hives hiveId with
  | none => .error (.jsError msgNotFoundHQ)
  | some hive =>
    if hive.beekeeper ≠ beekeeperId then .error (.jsError msgDifferentOwner)
    else .ok hive

/-- `createHive` (part_001:532-561): after `verifyJwt` resolves the
caller's subject id, verify `hiveName` then `structureType`, then save
`{hiveName, structureType, colonySize, beekeeper, queen: null}` under a
fresh key and return its id. -/
def createHive (beekeeperId : String) (hiveName structureType : String)
    (colonySize : Int) (s : Store) : Except JsErr (Store × Nat) :=
  match verifyAttribute hiveName with
  | .error e => .error e
  | .ok _ =>
    match verifyAttribute structureType with
    | .error e => .error e
    | .ok _ =>
      let nid := s.nextHiveId
      .ok ({ s with
              hives := aput s.hives nid
                { hiveName := hiveName, structureType := structureType,
                  colonySize := colonySize, beekeeper := beekeeperId,
                  queen := none },
              nextHiveId := nid + 1 }, nid)

/-- Result page assembled by `getHives` (part_001:567-599): `total` from
the unbounded owner-filtered query, the items of the limit-5
owner-filtered query, and `next` present iff the query info reports more
results remain. -/
structure HivesPage where
  total : Nat
  hives : List (Nat × HiveE)
  nextLink : Bool
  deriving DecidableEq, Repr

/-- `getHives` (part_001:567-599): runs the unbounded query filtered by
`beekeeper` for `total`, then the same query with `.limit(5)` for the
page, and adds a next link when more results remain.  The handler never
reads `req.query.cursor` and the paginated query has no `.start(...)`
call, so the supplied cursor parameter is ignored: every call returns
the first five owned hives. -/
def getHives (beekeeperId : String) (_cursor : Option String) (s : Store) :
    HivesPage :=
  let owned := s.hives.filter (fun p => p.2.beekeeper == beekeeperId)
  { total := owned.length
    hives := owned.take 5
    nextLink := decide (5 < owned.length) }

/-- `getHive` (part_001:606-621): `verifyJwt` then `verifyBeekeeper`;
on success the hive entity is returned. -/
def getHive (beekeeperId : String) (hiveId : Nat) (s : Store) :
    Except JsErr HiveE :=
  match verifyBeekeeper beekeeperId hiveId s with
  | .error e => .error e
  | .ok hive => .ok hive

/-- `putHive` (part_001:658-688): authorize, keep the stored hive's
`queen`, verify `hiveName` then `structureType`, and save
`{hiveName, structureType, colonySize, beekeeper: callerId, queen}`.
The caller id equals the stored owner whenever `verifyBeekeeper`
succeeded. -/
def putHive (beekeeperId : String) (hiveId : Nat)
    (hiveName structureType : String) (colonySize : Int) (s : Store) :
    Except JsErr Store :=
  match verifyBeekeeper beekeeperId hiveId s with
  | .error e => .error e
  | .ok hive =>
    match verifyAttribute hiveName with
    | .error e => .error e
    | .ok _ =>
      match verifyAttribute structureType with
      | .error e => .error e
      | .ok _ =>
        let newHive : HiveE :=
          { hiveName := hiveName, structureType := structureType,
            colonySize := colonySize, beekeeper := beekeeperId,
            queen := hive.queen }
        .ok { s with hives := aput s.hives hiveId newHive }

/-- Validation of an optional PATCH field: the source only calls
`verifyAttribute` on a field that is `!= null`. -/
def optVerify (o : Option String) : Except JsErr Unit :=
  match o with
  | some t => verifyAttribute t
  | none => .ok ()

/-- `patchHive` (part_001:696-743): authorize, merge the provided fields
over the stored hive (verifying each provided string), and save the
merged data, explicitly carrying over `beekeeper` and `queen`
(part_001:727-732). -/
def patchHive (beekeeperId : String) (hiveId : Nat)
    (hiveName structureType : Option String) (colonySize : Option Int)
    (s : Store) : Except JsErr Store :=
  match verifyBeekeeper beekeeperId hiveId s with
  | .error e => .error e
  | .ok hive =>
    match optVerify hiveName with
    | .error e => .error e
    | .ok _ =>
      match optVerify structureType with
      | .error e => .error e
      | .ok _ =>
        let merged : HiveE :=
          { hiveName := hiveName.getD hive.hiveName,
            structureType := structureType.getD hive.structureType,
            colonySize := colonySize.getD hive.colonySize,
            beekeeper := hive.beekeeper,
            queen := hive.queen }
        .ok { s with hives := aput s.hives hiveId merged }

/-- `assignQueen` (part_001:751-786): authorize the hive, load the
queen (`Error('Hive and/or queen not found')` if absent), reject when
`queen.hive != null` with `Error('Queen is already assigned')`, else
save the queen with its hive link set and then the hive with its queen
link set.  The hive's own occupancy is never checked. -/
def assignQueen (beekeeperId : String) (hiveId queenId : Nat) (s : Store) :
    Except JsErr Store :=
  match verifyBeekeeper beekeeperId hiveId s with
  | .error e => .error e
  | .ok hive =>
    match aget s.queens queenId with
    | none => .error (.jsError msgNotFoundHQ)
    | some queen =>
      if queen.hive ≠ none then .error (.jsError msgAlreadyAssigned)
      else .ok { s with
        queens := aput s.queens queenId { queen with hive := some hiveId },
        hives := aput s.hives hiveId { hive with queen := some queenId } }

/-- `removeQueen` (part_001:793-830): authorize the hive; if
`hive.queen` is null or its id differs from `queenId`, throw
`Error('Queen is not associated with this hive')`; load the queen
(absent: `Error('Hive and/or queen not found')`); if `queen.hive` is
null or points to a different hive, the same association error; else
save the queen with a null hive link and the hive with a null queen
link. -/
def removeQueen (beekeeperId : String) (hiveId queenId : Nat) (s : Store) :
    Except JsErr Store :=
  match verifyBeekeeper beekeeperId hiveId s with
  | .error e => .error e
  | .ok hive =>
    if hive.queen ≠ some queenId then .error (.jsError msgNotAssociated)
    else
      match aget s.queens queenId with
      | none => .error (.jsError msgNotFoundHQ)
      | some queen =>
        if queen.hive = none then .error (.jsError msgNotAssociated)
        else if queen.hive ≠ some hiveId then .error (.jsError msgNotAssociated)
        else .ok { s with
          queens := aput s.queens queenId { queen with hive := none },
          hives := aput s.hives hiveId { hive with queen := none } }

/-- `deleteHive` (part_001:627-650): authorize; if the hive holds a
queen, fire `removeQueen(req, hiveId, hive.queen.id)` WITHOUT awaiting
it (part_001:640-642) and return `datastore.delete(hiveKey)` at once
(part_001:644).  The un-awaited `removeQueen` must first pass its own
`verifyJwt` network round-trip before its first datastore read, so the
delete RPC is issued and completes before the detach's first access:
the detach then reloads the already-deleted hive, fails, and its
rejection is unhandled.  The model encodes this schedule: the hive is
deleted first, then `removeQueen` runs against the post-delete store
(where it necessarily faults without writing), and its outcome is
ignored except for any writes it would have made. -/
def deleteHive (beekeeperId : String) (hiveId : Nat) (s : Store) :
    Except JsErr Store :=
  match verifyBeekeeper beekeeperId hiveId s with
  | .error e => .error e
  | .ok hive =>
    let s1 : Store := { s with hives := adel s.hives hiveId }
    match hive.queen with
    | none => .ok s1
    | some queenId =>
      match removeQueen beekeeperId hiveId queenId s1 with
      | .ok t => .ok t
      | .error _ => .ok s1

/-- Invocation of `.then` on the `undefined` value that
`verifyAttribute` returns (src/queens.js lines 87 and 193:
`return verifyAttribute(name).then(...)`): member access on `undefined`
raises a TypeError, so the continuation — the rest of the source's
promise chain, kept here as `_k` — is never invoked. -/
def thenOfUndefined {α : Type} (_k : Unit → Except JsErr α) : Except JsErr α :=
  .error (.typeErr msgThenOfUndefined)

/-- `createQueen` (src/queens.js:78-101): builds
`{name, species, age, hive: null}` then evaluates
`verifyAttribute(name).then(...)`.  An invalid name throws
`Error('invalid characters')` synchronously; otherwise the `.then` call
on `undefined` raises a TypeError.  The continuation holding the
species check and the `datastore.save` is never reached. -/
def createQueen (name species : String) (age : Int) (s : Store) :
    Except JsErr (Store × Nat) :=
  match verifyAttribute name with
  | .error e => .error e
  | .ok _ =>
    thenOfUndefined (fun _ =>
      match verifyAttribute species with
      | .error e => .error e
      | .ok _ =>
        let nid := s.nextQueenId
        let newQueen : QueenE :=
          { name := name, species := species, age := age, hive := none }
        .ok ({ s with queens := aput s.queens nid newQueen,
                      nextQueenId := nid + 1 }, nid))

/-- Result page assembled by `getQueens` (src/queens.js:107-133). -/
structure QueensPage where
  total : Nat
  queens : List (Nat × QueenE)
  nextLink : Bool
  deriving DecidableEq, Repr

/-- `getQueens` (src/queens.js:107-133): the first continuation computes
`foundQueens.total = queens[0].length();` — `length` of an array is a
number, not a function, so the call raises a TypeError and the promise
chain rejects before a page is ever assembled.  The query is not
owner-filtered and `req.query.cursor` is never read. -/
def getQueens (_cursor : Option String) (_s : Store) :
    Except JsErr QueensPage :=
  .error (.typeErr msgLengthNotFunction)

/-- `getQueen` (src/queens.js:140-156): unauthenticated load by key;
absent means `Error('Queen not found')`. -/
def getQueen (queenId : Nat) (s : Store) : Except JsErr QueenE :=
  match aget s.queens queenId with
  | none => .error (.jsError msgQueenNotFound)
  | some q => .ok q

/-- `deleteQueen` (src/queens.js:162-177): load by key, absent means
`Error('Queen not found')`, else delete the queen.  The hive that may
still reference this queen is not touched. -/
def deleteQueen (queenId : Nat) (s : Store) : Except JsErr Store :=
  match aget s.queens queenId with
  | none => .error (.jsError msgQueenNotFound)
  | some _ => .ok { s with queens := adel s.queens queenId }

/-- `putQueen` (src/queens.js:185-207): evaluates
`verifyAttribute(name).then(...)` and therefore faults exactly like
`createQueen`: invalid-characters throw or TypeError, never a save. -/
def putQueen (queenId : Nat) (name species : String) (age : Int)
    (s : Store) : Except JsErr Store :=
  match verifyAttribute name with
  | .error e => .error e
  | .ok _ =>
    thenOfUndefined (fun _ =>
      match verifyAttribute species with
      | .error e => .error e
      | .ok _ =>
        let newQueen : QueenE :=
          { name := name, species := species, age := age, hive := none }
        .ok { s with queens := aput s.queens queenId newQueen })

/-- `patchQueen` (src/queens.js:215-254): load the queen (a missing
entity makes `queen.map(ds.fromDatastore)` dereference `undefined`,
raising a TypeError), verify the provided fields, then save
`{name, species, age}` (lines 240-244).  The saved data omits the
`hive` property, so the stored entity loses its hive link; modelled as
`hive := none`. -/
def patchQueen (queenId : Nat) (name species : Option String)
    (age : Option Int) (s : Store) : Except JsErr Store :=
  match aget s.queens queenId with
  | none => .error (.typeErr msgEntityUndefined)
  | some q =>
    match optVerify name with
    | .error e => .error e
    | .ok _ =>
      match optVerify species with
      | .error e => .error e
      | .ok _ =>
        let merged : QueenE :=
          { name := name.getD q.name, species := species.getD q.species,
            age := age.getD q.age, hive := none }
        .ok { s with queens := aput s.queens queenId merged }

/-- Catch table of `PUT /hives/:hive_id/queens/:queen_id`
(part_001:1019-1033): not-found 404, already-assigned 403, bad JWT 401;
any other failure sends no response (`none`). -/
def assignRouteStatus (e : JsErr) : Option Nat :=
  match e with
  | .jsError m =>
    if m = msgNotFoundHQ then some 404
    else if m = msgAlreadyAssigned then some 403
    else if m = msgMissingJwt then some 401
    else none
  | .typeErr _ => none

/-- Catch table of `DELETE /hives/:hive_id/queens/:queen_id`
(part_001:1042-1056): not-found 404, not-associated 403, bad JWT 401. -/
def removeRouteStatus (e : JsErr) : Option Nat :=
  match e with
  | .jsError m =>
    if m = msgNotFoundHQ then some 404
    else if m = msgNotAssociated then some 403
    else if m = msgMissingJwt then some 401
    else none
  | .typeErr _ => none

/-- Catch table of `POST /hives` (part_001:862-868): invalid characters
400, bad JWT 401. -/
def createHiveRouteStatus (e : JsErr) : Option Nat :=
  match e with
  | .jsError m =>
    if m = msgInvalidChars then some 400
    else if m = msgMissingJwt then some 401
    else none
  | .typeErr _ => none

/-- Catch table of `GET /hives/:hive_id` (part_001:914-922): bad JWT
401, different owner 403, not found 404. -/
def getHiveRouteStatus (e : JsErr) : Option Nat :=
  match e with
  | .jsError m =>
    if m = msgMissingJwt then some 401
    else if m = msgDifferentOwner then some 403
    else if m = msgNotFoundHQ then some 404
    else none
  | .typeErr _ => none

/-- The assign route handler (part_001:1019-1033): 204 and the written
store on success; on failure the catch status and the store untouched. -/
def assignRoute (beekeeperId : String) (hiveId queenId : Nat) (s : Store) :
    Option Nat × Store :=
  match assignQueen beekeeperId hiveId queenId s with
  | .ok s2 => (some 204, s2)
  | .error e => (assignRouteStatus e, s)

/-- The remove route handler (part_001:1042-1056): 204 and the written
store on success; on failure the catch status and the store untouched. -/
def removeRoute (beekeeperId : String) (hiveId queenId : Nat) (s : Store) :
    Option Nat × Store :=
  match removeQueen beekeeperId hiveId queenId s with
  | .ok s2 => (some 204, s2)
  | .error e => (removeRouteStatus e, s)

/-- The hive-create route handler (part_001:840-870) after its
Content-Type and required-field checks: 201 with the written store on
success, else the catch status with the store untouched. -/
def createHiveRoute (beekeeperId : String)
    (hiveName structureType : String) (colonySize : Int) (s : Store) :
    Option Nat × Store :=
  match createHive beekeeperId hiveName structureType colonySize s with
  | .ok r => (some 201, r.1)
  | .error e => (createHiveRouteStatus e, s)

/-- Both halves of the spec's mutual-consistency invariant, read over
the entries of the two tables: a hive's queen link names a queen exactly
when that queen's hive link names the hive back. -/
def InvIff (s : Store) : Prop :=
  ∀ p ∈ s.hives, ∀ r ∈ s.queens,
    (p.2.queen = some r.1 ↔ r.2.hive = some p.1)

instance (s : Store) : Decidable (InvIff s) := by
  unfold InvIff; exact inferInstance

/-- The forward half only: a hive's queen link is always reciprocated
by the named queen's hive link. -/
def InvFwd (s : Store) : Prop :=
  ∀ p ∈ s.hives, ∀ r ∈ s.queens,
    p.2.queen = some r.1 → r.2.hive = some p.1

instance (s : Store) : Decidable (InvFwd s) := by
  unfold InvFwd; exact inferInstance

/-- At most one hive holds a given queen: two hive entries whose queen
links name the same queen have the same key. -/
def AtMostOneHolder (s : Store) : Prop :=
  ∀ p ∈ s.hives, ∀ p2 ∈ s.hives, ∀ r ∈ s.queens,
    p.2.queen = some r.1 → p2.2.queen = some r.1 → p.1 = p2.1

/-- One successful state-changing call of the API: hive create, full and
partial hive update, hive deletion, assignment, removal, and the queen
router's create, full update and delete (its create and full update
never produce a new state, faulting before any save).  `patchQueen` is
not included: it drops the stored `hive` property of an assigned queen
and so breaks even the forward half of the invariant. -/
inductive Step : Store → Store → Prop where
  | createH (bk n t : String) (c : Int) (nid : Nat) {s s2 : Store} :
      createHive bk n t c s = .ok (s2, nid) → Step s s2
  | putH (bk : String) (i : Nat) (n t : String) (c : Int) {s s2 : Store} :
      putHive bk i n t c s = .ok s2 → Step s s2
  | patchH (bk : String) (i : Nat) (n t : Option String) (c : Option Int)
      {s s2 : Store} : patchHive bk i n t c s = .ok s2 → Step s s2
  | deleteH (bk : String) (i : Nat) {s s2 : Store} :
      deleteHive bk i s = .ok s2 → Step s s2
  | assign (bk : String) (i q : Nat) {s s2 : Store} :
      assignQueen bk i q s = .ok s2 → Step s s2
  | remove (bk : String) (i q : Nat) {s s2 : Store} :
      removeQueen bk i q s = .ok s2 → Step s s2
  | createQ (n sp : String) (a : Int) (nid : Nat) {s s2 : Store} :
      createQueen n sp a s = .ok (s2, nid) → Step s s2
  | putQ (i : Nat) (n sp : String) (a : Int) {s s2 : Store} :
      putQueen i n sp a s = .ok s2 → Step s s2
  | deleteQ (i : Nat) {s s2 : Store} :
      deleteQueen i s = .ok s2 → Step s s2

/-- States reachable by successful API calls from a given store. -/
def Reachable (s0 s : Store) : Prop := Relation.ReflTransGen Step s0 s

instance {ε α : Type} [DecidableEq ε] [DecidableEq α] :
    DecidableEq (Except ε α) :=
  fun a b =>
    match a, b with
    | .ok x, .ok y =>
      if h : x = y then isTrue (by rw [h])
      else isFalse (fun he => h (Except.ok.inj he))
    | .error x, .error y =>
      if h : x = y then isTrue (by rw [h])
      else isFalse (fun he => h (Except.error.inj he))
    | .ok _, .error _ => isFalse (fun he => Except.noConfusion he)
    | .error _, .ok _ => isFalse (fun he => Except.noConfusion he)

/-- Subject id of beekeeper A in the concrete examples. -/
def bkA : String := "A"

/-- Subject id of beekeeper B in the concrete examples. -/
def bkB : String := "B"

/-- A hive name used in the concrete examples. -/
def nameNorth : String := "North"

/-- A structure type used in the concrete examples. -/
def typeLongBox : String := "long box"

/-- A queen name used in the concrete examples. -/
def nameBee : String := "Bee"

/-- A species used in the concrete examples. -/
def speciesApis : String := "apis"

/-- A hive entity owned by beekeeper A with the given queen link. -/
def hiveA (qn : Option Nat) : HiveE :=
  { hiveName := nameNorth, structureType := typeLongBox,
    colonySize := 400, beekeeper := bkA, queen := qn }

/-- A queen entity with the given hive link. -/
def queenU (hv : Option Nat) : QueenE :=
  { name := nameBee, species := speciesApis, age := 5, hive := hv }

/-- Concrete store: beekeeper A owns hives 201 and 202, queens 55 and
56 exist unassigned. -/
def exStore : Store :=
  { hives := [(201, hiveA none), (202, hiveA none)],
    queens := [(55, queenU none), (56, queenU none)],
    nextHiveId := 300, nextQueenId := 60 }

/-- Concrete store for the C1 counterexample: hive 1 already holds
queen 10 (mutually), hive 2 is empty, queen 20 is unassigned. -/
def cexStore : Store :=
  { hives := [(1, hiveA (some 10)), (2, hiveA none)],
    queens := [(10, queenU (some 1)), (20, queenU none)],
    nextHiveId := 3, nextQueenId := 30 }

/-- The store produced by `assignQueen bkA 1 20 cexStore`: hive 1 now
points at queen 20 while queen 10 still points back at hive 1. -/
def cexStoreAfter : Store :=
  { hives := [(1, hiveA (some 20)), (2, hiveA none)],
    queens := [(20, queenU (some 1)), (10, queenU (some 1))],
    nextHiveId := 3, nextQueenId := 30 }

/-- Concrete store for C5: beekeeper A's hive 201 holds queen 55 and
queen 55 points back at hive 201, a mutually consistent pair. -/
def c5Store : Store :=
  { hives := [(201, hiveA (some 55))],
    queens := [(55, queenU (some 201))],
    nextHiveId := 300, nextQueenId := 60 }

/-- The store after `DELETE /hives/201` on `c5Store`: the hive is
gone, but queen 55 still carries its hive link to it. -/
def c5StoreAfter : Store :=
  { hives := [], queens := [(55, queenU (some 201))],
    nextHiveId := 300, nextQueenId := 60 }

/-- Concrete store for C7: beekeeper A owns twelve hives, keys 1..12. -/
def pagedStore : Store :=
  { hives := (List.range 12).map (fun k => (k + 1, hiveA none)),
    queens := [], nextHiveId := 13, nextQueenId := 1 }

/-- Cursor string a client would copy out of the first page's next
link. -/
def cursorPageOne : String := "endCursorPageOne"

/-- A hive name accepted by the validator (letters, digit, space). -/
def nameApiaryGood : String := "Apiary 1"

/-- A hive name rejected by the validator (contains a hash sign). -/
def nameApiaryBad : String := "Apiary#1"

theorem aget_aput_self {α : Type} (l : List (Nat × α)) (k : Nat) (v : α) :
    aget (aput l k v) k = some v := by
  simp [aget, aput, List.find?]

theorem find?_filter_ne {α : Type} (l : List (Nat × α)) (k k' : Nat) (h : k' ≠ k) :
    (l.filter (fun p => p.1 != k)).find? (fun p => p.1 == k') =
      l.find? (fun p => p.1 == k') := by
  induction l with
  | nil => rfl
  | cons a t ih =>
    by_cases hk : a.1 = k'
    · have h1 : (a.1 == k') = true := by simp [hk]
      have h2 : (a.1 != k) = true := by simp [hk]; omega
      simp [List.filter_cons, h2, List.find?, h1]
    · have h1 : (a.1 == k') = false := by simp [hk]
      by_cases h2 : a.1 = k
      · have h4 : (k == k') = false := by simp; omega
        simp [List.filter_cons, h2, List.find?, ih, h4]
      · have h3 : (a.1 != k) = true := by simp [h2]
        simp [List.filter_cons, h3, List.find?, h1, ih]

theorem aget_aput_ne {α : Type} (l : List (Nat × α)) (k k' : Nat) (v : α)
    (h : k' ≠ k) : aget (aput l k v) k' = aget l k' := by
  have h1 : (k == k') = false := by simp; omega
  simp [aget, aput, List.find?, h1, find?_filter_ne l k k' h]

theorem aget_adel_self {α : Type} (l : List (Nat × α)) (k : Nat) :
    aget (adel l k) k = none := by
  induction l with
  | nil => rfl
  | cons a t ih =>
    by_cases h : a.1 = k
    · simp only [adel, List.filter_cons] at ih ⊢
      simp [h, ih]
    · have h3 : (a.1 != k) = true := by simp [h]
      have h1 : (a.1 == k) = false := by simp [h]
      simp only [adel, aget, List.filter_cons] at ih ⊢
      simp [h3, List.find?, h1, ih]

theorem aget_adel_ne {α : Type} (l : List (Nat × α)) (k k' : Nat)
    (h : k' ≠ k) : aget (adel l k) k' = aget l k' := by
  simp [adel, aget, find?_filter_ne l k k' h]

theorem mem_aput {α : Type} {l : List (Nat × α)} {k : Nat} {v : α}
    {p : Nat × α} (h : p ∈ aput l k v) :
    p = (k, v) ∨ (p ∈ l ∧ p.1 ≠ k) := by
  rcases List.mem_cons.mp h with h1 | h1
  · exact Or.inl h1
  · have h2 := List.mem_filter.mp h1
    refine Or.inr ⟨h2.1, ?_⟩
    have := h2.2
    simpa using this

theorem mem_adel {α : Type} {l : List (Nat × α)} {k : Nat}
    {p : Nat × α} (h : p ∈ adel l k) : p ∈ l ∧ p.1 ≠ k := by
  have h2 := List.mem_filter.mp h
  refine ⟨h2.1, ?_⟩
  have := h2.2
  simpa using this

theorem aget_mem {α : Type} {l : List (Nat × α)} {k : Nat} {v : α}
    (h : aget l k = some v) : (k, v) ∈ l := by
  unfold aget at h
  rcases hf : l.find? (fun p => p.1 == k) with _ | p
  · rw [hf] at h; simp at h
  · rw [hf] at h
    simp at h
    have hmem := List.mem_of_find?_eq_some hf
    have hpred := List.find?_some hf
    have hk : p.1 = k := by simpa using hpred
    have : p = (k, v) := by
      cases p with
      | mk a b => simp at hk h; simp [hk, h]
    rw [this] at hmem
    exact hmem

theorem verifyBeekeeper_ok {bk : String} {i : Nat} {s : Store} {hv : HiveE} :
    verifyBeekeeper bk i s = .ok hv ↔
      (aget s.hives i = some hv ∧ hv.beekeeper = bk) := by
  unfold verifyBeekeeper
  cases hg : aget s.hives i with
  | none => simp
  | some h0 =>
    by_cases hb : h0.beekeeper = bk
    · simp [hb]
      intro he
      rw [← he]; exact hb
    · simp [hb]
      intro h1 h2
      rw [h1] at hb; exact hb h2

theorem createHive_ok {bk n t : String} {c : Int} {s s2 : Store} {nid : Nat}
    (h : createHive bk n t c s = .ok (s2, nid)) :
    nid = s.nextHiveId ∧
      s2 = { s with
        hives := aput s.hives s.nextHiveId
          { hiveName := n, structureType := t, colonySize := c,
            beekeeper := bk, queen := none },
        nextHiveId := s.nextHiveId + 1 } := by
  unfold createHive at h
  cases h1 : verifyAttribute n with
  | error e => rw [h1] at h; simp at h
  | ok u =>
    rw [h1] at h
    cases h2 : verifyAttribute t with
    | error e => rw [h2] at h; simp at h
    | ok u2 =>
      rw [h2] at h
      simp at h
      exact ⟨h.2.symm, h.1.symm⟩

theorem putHive_ok {bk : String} {i : Nat} {n t : String} {c : Int}
    {s s2 : Store} (h : putHive bk i n t c s = .ok s2) :
    ∃ hive, aget s.hives i = some hive ∧ hive.beekeeper = bk ∧
      s2 = { s with hives := aput s.hives i (
        { hiveName := n, structureType := t, colonySize := c,
          beekeeper := bk, queen := hive.queen }) } := by
  unfold putHive at h
  cases hvb : verifyBeekeeper bk i s with
  | error e => rw [hvb] at h; simp at h
  | ok hive =>
    rw [hvb] at h
    cases h1 : verifyAttribute n with
    | error e => rw [h1] at h; simp at h
    | ok u =>
      rw [h1] at h
      cases h2 : verifyAttribute t with
      | error e => rw [h2] at h; simp at h
      | ok u2 =>
        rw [h2] at h
        simp at h
        have hb := verifyBeekeeper_ok.mp hvb
        exact ⟨hive, hb.1, hb.2, h.symm⟩

theorem patchHive_ok {bk : String} {i : Nat} {n t : Option String}
    {c : Option Int} {s s2 : Store} (h : patchHive bk i n t c s = .ok s2) :
    ∃ hive, aget s.hives i = some hive ∧ hive.beekeeper = bk ∧
      s2 = { s with hives := aput s.hives i (
        { hiveName := n.getD hive.hiveName,
          structureType := t.getD hive.structureType,
          colonySize := c.getD hive.colonySize,
          beekeeper := hive.beekeeper, queen := hive.queen }) } := by
  unfold patchHive at h
  cases hvb : verifyBeekeeper bk i s with
  | error e => rw [hvb] at h; simp at h
  | ok hive =>
    rw [hvb] at h
    cases h1 : optVerify n with
    | error e => rw [h1] at h; simp at h
    | ok u =>
      rw [h1] at h
      cases h2 : optVerify t with
      | error e => rw [h2] at h; simp at h
      | ok u2 =>
        rw [h2] at h
        simp at h
        have hb := verifyBeekeeper_ok.mp hvb
        exact ⟨hive, hb.1, hb.2, h.symm⟩

theorem assignQueen_ok {bk : String} {i q : Nat} {s s2 : Store}
    (h : assignQueen bk i q s = .ok s2) :
    ∃ hive queen, aget s.hives i = some hive ∧ hive.beekeeper = bk ∧
      aget s.queens q = some queen ∧ queen.hive = none ∧
      s2 = { s with
        queens := aput s.queens q { queen with hive := some i },
        hives := aput s.hives i { hive with queen := some q } } := by
  unfold assignQueen at h
  cases hvb : verifyBeekeeper bk i s with
  | error e => rw [hvb] at h; simp at h
  | ok hive =>
    rw [hvb] at h
    cases hq : aget s.queens q with
    | none => rw [hq] at h; simp at h
    | some queen =>
      rw [hq] at h
      by_cases hqh : queen.hive = none
      · simp [hqh] at h
        have hb := verifyBeekeeper_ok.mp hvb
        exact ⟨hive, queen, hb.1, hb.2, rfl, hqh, h.symm⟩
      · simp [hqh] at h

theorem removeQueen_ok {bk : String} {i q : Nat} {s s2 : Store}
    (h : removeQueen bk i q s = .ok s2) :
    ∃ hive queen, aget s.hives i = some hive ∧ hive.beekeeper = bk ∧
      hive.queen = some q ∧ aget s.queens q = some queen ∧
      queen.hive = some i ∧
      s2 = { s with
        queens := aput s.queens q { queen with hive := none },
        hives := aput s.hives i { hive with queen := none } } := by
  unfold removeQueen at h
  cases hvb : verifyBeekeeper bk i s with
  | error e => rw [hvb] at h; simp at h
  | ok hive =>
    rw [hvb] at h
    by_cases hhq : hive.queen = some q
    · simp [hhq] at h
      cases hq : aget s.queens q with
      | none => rw [hq] at h; simp at h
      | some queen =>
        rw [hq] at h
        by_cases hq0 : queen.hive = none
        · simp [hq0] at h
        · by_cases hqi : queen.hive = some i
          · simp [hq0, hqi] at h
            have hb := verifyBeekeeper_ok.mp hvb
            exact ⟨hive, queen, hb.1, hb.2, hhq, rfl, hqi, h.symm⟩
          · simp [hq0, hqi] at h
    · simp [hhq] at h

theorem removeQueen_after_delete (bk : String) (i q : Nat) (s : Store) :
    removeQueen bk i q { s with hives := adel s.hives i } =
      .error (.jsError msgNotFoundHQ) := by
  simp [removeQueen, verifyBeekeeper, aget_adel_self]

theorem deleteHive_ok {bk : String} {i : Nat} {s s2 : Store}
    (h : deleteHive bk i s = .ok s2) :
    ∃ hive, aget s.hives i = some hive ∧ hive.beekeeper = bk ∧
      s2 = { s with hives := adel s.hives i } := by
  unfold deleteHive at h
  cases hvb : verifyBeekeeper bk i s with
  | error e => rw [hvb] at h; simp at h
  | ok hive =>
    rw [hvb] at h
    have hb := verifyBeekeeper_ok.mp hvb
    cases hhq : hive.queen with
    | none =>
      simp [hhq] at h
      exact ⟨hive, hb.1, hb.2, h.symm⟩
    | some q =>
      simp [hhq, removeQueen_after_delete bk i q s] at h
      exact ⟨hive, hb.1, hb.2, h.symm⟩

theorem deleteQueen_ok {i : Nat} {s s2 : Store}
    (h : deleteQueen i s = .ok s2) :
    s2 = { s with queens := adel s.queens i } := by
  unfold deleteQueen at h
  cases hq : aget s.queens i with
  | none => rw [hq] at h; simp at h
  | some q => rw [hq] at h; simp at h; exact h.symm

theorem createQueen_never_ok (n sp : String) (a : Int) (s : Store)
    (r : Store × Nat) : createQueen n sp a s ≠ .ok r := by
  unfold createQueen
  cases h1 : verifyAttribute n with
  | error e => simp
  | ok u => simp [thenOfUndefined]

theorem putQueen_never_ok (i : Nat) (n sp : String) (a : Int) (s s2 : Store) :
    putQueen i n sp a s ≠ .ok s2 := by
  unfold putQueen
  cases h1 : verifyAttribute n with
  | error e => simp
  | ok u => simp [thenOfUndefined]

theorem invFwd_assign {bk : String} {i q : Nat} {s s2 : Store}
    (hinv : InvFwd s) (h : assignQueen bk i q s = .ok s2) : InvFwd s2 := by
  obtain ⟨hive, queen, hgh, _, hgq, hqn, hs2⟩ := assignQueen_ok h
  subst hs2
  intro p hp r hr hpq
  rcases mem_aput hp with hp1 | hp1
  · subst hp1
    simp at hpq
    rcases mem_aput hr with hr1 | hr1
    · subst hr1; simp
    · exact absurd hpq.symm hr1.2
  · rcases mem_aput hr with hr1 | hr1
    · subst hr1
      simp at hpq
      have := hinv p hp1.1 (q, queen) (aget_mem hgq) hpq
      rw [hqn] at this
      simp at this
    · exact hinv p hp1.1 r hr1.1 hpq

theorem invFwd_remove {bk : String} {i q : Nat} {s s2 : Store}
    (hinv : InvFwd s) (h : removeQueen bk i q s = .ok s2) : InvFwd s2 := by
  obtain ⟨hive, queen, hgh, _, hhq, hgq, hqi, hs2⟩ := removeQueen_ok h
  subst hs2
  intro p hp r hr hpq
  rcases mem_aput hp with hp1 | hp1
  · subst hp1; simp at hpq
  · rcases mem_aput hr with hr1 | hr1
    · subst hr1
      simp at hpq
      have h2 := hinv p hp1.1 (q, queen) (aget_mem hgq) hpq
      rw [hqi] at h2
      simp at h2
      exact absurd h2.symm hp1.2
    · exact hinv p hp1.1 r hr1.1 hpq

theorem invFwd_createH {bk n t : String} {c : Int} {s s2 : Store} {nid : Nat}
    (hinv : InvFwd s) (h : createHive bk n t c s = .ok (s2, nid)) :
    InvFwd s2 := by
  obtain ⟨-, hs2⟩ := createHive_ok h
  subst hs2
  intro p hp r hr hpq
  rcases mem_aput hp with hp1 | hp1
  · subst hp1; simp at hpq
  · exact hinv p hp1.1 r hr hpq

theorem invFwd_putH {bk : String} {i : Nat} {n t : String} {c : Int}
    {s s2 : Store} (hinv : InvFwd s) (h : putHive bk i n t c s = .ok s2) :
    InvFwd s2 := by
  obtain ⟨hive, hgh, _, hs2⟩ := putHive_ok h
  subst hs2
  intro p hp r hr hpq
  rcases mem_aput hp with hp1 | hp1
  · subst hp1
    simp at hpq
    exact hinv (i, hive) (aget_mem hgh) r hr hpq
  · exact hinv p hp1.1 r hr hpq

theorem invFwd_patchH {bk : String} {i : Nat} {n t : Option String}
    {c : Option Int} {s s2 : Store} (hinv : InvFwd s)
    (h : patchHive bk i n t c s = .ok s2) : InvFwd s2 := by
  obtain ⟨hive, hgh, _, hs2⟩ := patchHive_ok h
  subst hs2
  intro p hp r hr hpq
  rcases mem_aput hp with hp1 | hp1
  · subst hp1
    simp at hpq
    exact hinv (i, hive) (aget_mem hgh) r hr hpq
  · exact hinv p hp1.1 r hr hpq

theorem invFwd_deleteH {bk : String} {i : Nat} {s s2 : Store}
    (hinv : InvFwd s) (h : deleteHive bk i s = .ok s2) : InvFwd s2 := by
  obtain ⟨hive, -, -, hs2⟩ := deleteHive_ok h
  subst hs2
  intro p hp r hr hpq
  exact hinv p (mem_adel hp).1 r hr hpq

theorem invFwd_deleteQ {i : Nat} {s s2 : Store}
    (hinv : InvFwd s) (h : deleteQueen i s = .ok s2) : InvFwd s2 := by
  have hs2 := deleteQueen_ok h
  subst hs2
  intro p hp r hr hpq
  exact hinv p hp r (mem_adel hr).1 hpq

theorem invFwd_step {s s2 : Store} (hinv : InvFwd s) (hstep : Step s s2) :
    InvFwd s2 := by
  cases hstep with
  | createH bk n t c nid h => exact invFwd_createH hinv h
  | putH bk i n t c h => exact invFwd_putH hinv h
  | patchH bk i n t c h => exact invFwd_patchH hinv h
  | deleteH bk i h => exact invFwd_deleteH hinv h
  | assign bk i q h => exact invFwd_assign hinv h
  | remove bk i q h => exact invFwd_remove hinv h
  | createQ n sp a nid h => exact absurd h (createQueen_never_ok n sp a _ _)
  | putQ i n sp a h => exact absurd h (putQueen_never_ok i n sp a _ _)
  | deleteQ i h => exact invFwd_deleteQ hinv h

theorem invFwd_reachable {s0 s : Store} (h0 : InvFwd s0)
    (hr : Reachable s0 s) : InvFwd s := by
  induction hr with
  | refl => exact h0
  | tail _ hbc ih => exact invFwd_step ih hbc

theorem invFwd_atMostOne {s : Store} (hinv : InvFwd s) :
    AtMostOneHolder s := by
  intro p hp p2 hp2 r hr h1 h2
  have e1 := hinv p hp r hr h1
  have e2 := hinv p2 hp2 r hr h2
  rw [e1] at e2
  exact Option.some.inj e2

/-- C1 counterexample: the mutual-consistency invariant, as claimed, is
not maintained by the API's operations.  `cexStore` satisfies the full
iff-invariant, a single successful `assignQueen` call (assigning the
unassigned queen 20 to hive 1, which already holds queen 10 — the code
never checks the hive's occupancy) is accepted, and the resulting store
violates the invariant: hive 1's queen link names 20 while queen 10's
hive link still names hive 1. -/
theorem C1_mutual_consistency_cex :
    InvIff cexStore ∧
    assignQueen bkA 1 20 cexStore = .ok cexStoreAfter ∧
    ¬ InvIff cexStoreAfter :=
  ⟨by decide, by decide, by decide⟩

/-- C1 (amended): the operations preserve only the forward half of the
invariant — whenever a hive's queen link names a queen, that queen's
hive link names the hive back — provided queen PATCH is excluded (it
drops an assigned queen's hive link).  From this half it follows that
at most one hive holds a given queen.  The reverse half fails because
assignment never checks the hive's occupancy
(`C1_mutual_consistency_cex`). -/
theorem C1_mutual_consistency_amended {s0 s : Store} (h0 : InvFwd s0)
    (hr : Reachable s0 s) : InvFwd s ∧ AtMostOneHolder s := by
  have h := invFwd_reachable h0 hr
  exact ⟨h, invFwd_atMostOne h⟩

/-- Witness for `C1_mutual_consistency_amended` at a concrete one-step
reachable store. -/
theorem C1_mutual_consistency_witness :
    InvFwd cexStoreAfter ∧ AtMostOneHolder cexStoreAfter :=
  C1_mutual_consistency_amended (by decide)
    (Relation.ReflTransGen.single
      (Step.assign bkA 1 20
        (by decide : assignQueen bkA 1 20 cexStore = Except.ok cexStoreAfter)))

/-- C2: assignment round trip.  For any authenticated subject `bk`,
hive `i` owned by `bk`, and queen `q` whose hive link is null, the
assignment succeeds and writes both sides: reading the hive afterwards
yields a queen link equal to `q` and reading the queen yields a hive
link equal to `i`. -/
theorem C2_assign_round_trip {s : Store} {bk : String} {i q : Nat}
    {hive : HiveE} {queen : QueenE}
    (hh : aget s.hives i = some hive) (hbk : hive.beekeeper = bk)
    (hq : aget s.queens q = some queen) (hqn : queen.hive = none) :
    ∃ s2, assignQueen bk i q s = .ok s2 ∧
      getHive bk i s2 = .ok { hive with queen := some q } ∧
      getQueen q s2 = .ok { queen with hive := some i } := by
  have hvb : verifyBeekeeper bk i s = .ok hive := verifyBeekeeper_ok.mpr ⟨hh, hbk⟩
  refine ⟨{ s with
      queens := aput s.queens q { queen with hive := some i },
      hives := aput s.hives i { hive with queen := some q } }, ?_, ?_, ?_⟩
  · unfold assignQueen
    rw [hvb, hq]
    simp [hqn]
  · unfold getHive verifyBeekeeper
    rw [show aget (aput s.hives i { hive with queen := some q }) i =
          some { hive with queen := some q } from aget_aput_self _ _ _]
    simp [hbk]
  · unfold getQueen
    rw [show aget (aput s.queens q { queen with hive := some i }) q =
          some { queen with hive := some i } from aget_aput_self _ _ _]

/-- Witness for `C2_assign_round_trip`: beekeeper A assigns unassigned
queen 55 to their hive 201 in the concrete store. -/
theorem C2_assign_round_trip_witness :
    ∃ s2, assignQueen bkA 201 55 exStore = .ok s2 ∧
      getHive bkA 201 s2 = .ok { hiveA none with queen := some 55 } ∧
      getQueen 55 s2 = .ok { queenU none with hive := some 201 } :=
  C2_assign_round_trip (by decide) (by decide) (by decide) (by decide)

/-- C3: double assignment rejected.  For any hive `i` owned by the
caller and any queen `q` whose hive link is non-null, the assignment
fails with `Error('Queen is already assigned')`, surfaced by the route
as HTTP 403, and the store — in particular the hive's queen link — is
left unchanged. -/
theorem C3_double_assign_rejected {s : Store} {bk : String} {i q : Nat}
    {hive : HiveE} {queen : QueenE} {j : Nat}
    (hh : aget s.hives i = some hive) (hbk : hive.beekeeper = bk)
    (hq : aget s.queens q = some queen) (hqa : queen.hive = some j) :
    assignQueen bk i q s = .error (.jsError msgAlreadyAssigned) ∧
    assignRoute bk i q s = (some 403, s) := by
  have hvb : verifyBeekeeper bk i s = .ok hive := verifyBeekeeper_ok.mpr ⟨hh, hbk⟩
  have h1 : assignQueen bk i q s = .error (.jsError msgAlreadyAssigned) := by
    unfold assignQueen
    rw [hvb, hq]
    simp [hqa]
  have h2 : assignRouteStatus (JsErr.jsError msgAlreadyAssigned) = some 403 := by
    decide
  refine ⟨h1, ?_⟩
  unfold assignRoute
  rw [h1]
  simp [h2]

/-- Witness for `C3_double_assign_rejected`: queen 20 is already
assigned to hive 1, so assigning it to hive 2 returns 403 and leaves
the store untouched (hive 2's queen link remains null). -/
theorem C3_double_assign_rejected_witness :
    assignQueen bkA 2 20 cexStoreAfter = .error (.jsError msgAlreadyAssigned) ∧
    assignRoute bkA 2 20 cexStoreAfter = (some 403, cexStoreAfter) :=
  C3_double_assign_rejected
    (by decide : aget cexStoreAfter.hives 2 = some (hiveA none))
    (by decide : (hiveA none).beekeeper = bkA)
    (by decide : aget cexStoreAfter.queens 20 = some (queenU (some 1)))
    (by decide : (queenU (some 1)).hive = some 1)

/-- C4: removal symmetry.  After a successful assignment of queen `q`
to owned hive `i`, removal succeeds and clears both links, and a second
removal on the now-unassigned pair fails with
`Error('Queen is not associated with this hive')` (HTTP 403) and
changes neither entity. -/
theorem C4_removal_symmetry {s : Store} {bk : String} {i q : Nat}
    {hive : HiveE} {queen : QueenE}
    (hh : aget s.hives i = some hive) (hbk : hive.beekeeper = bk)
    (hq : aget s.queens q = some queen) (hqn : queen.hive = none) :
    ∃ s1 s2, assignQueen bk i q s = .ok s1 ∧
      removeQueen bk i q s1 = .ok s2 ∧
      aget s2.hives i = some { hive with queen := none } ∧
      aget s2.queens q = some { queen with hive := none } ∧
      removeQueen bk i q s2 = .error (.jsError msgNotAssociated) ∧
      removeRoute bk i q s2 = (some 403, s2) := by
  have hvb : verifyBeekeeper bk i s = .ok hive := verifyBeekeeper_ok.mpr ⟨hh, hbk⟩
  refine ⟨{ s with
      queens := aput s.queens q { queen with hive := some i },
      hives := aput s.hives i { hive with queen := some q } },
    { s with
      queens := aput (aput s.queens q { queen with hive := some i }) q
        { queen with hive := none },
      hives := aput (aput s.hives i { hive with queen := some q }) i
        { hive with queen := none } }, ?_, ?_, ?_, ?_, ?_, ?_⟩
  · unfold assignQueen
    rw [hvb, hq]
    simp [hqn]
  · unfold removeQueen verifyBeekeeper
    rw [show aget (aput s.hives i { hive with queen := some q }) i =
          some { hive with queen := some q } from aget_aput_self _ _ _]
    rw [show aget (aput s.queens q { queen with hive := some i }) q =
          some { queen with hive := some i } from aget_aput_self _ _ _]
    simp [hbk]
  · rw [show aget (aput (aput s.hives i { hive with queen := some q }) i
          { hive with queen := none }) i =
          some { hive with queen := none } from aget_aput_self _ _ _]
  · rw [show aget (aput (aput s.queens q { queen with hive := some i }) q
          { queen with hive := none }) q =
          some { queen with hive := none } from aget_aput_self _ _ _]
  · unfold removeQueen verifyBeekeeper
    rw [show aget (aput (aput s.hives i { hive with queen := some q }) i
          { hive with queen := none }) i =
          some { hive with queen := none } from aget_aput_self _ _ _]
    simp [hbk]
  · have h1 : removeQueen bk i q { s with
        queens := aput (aput s.queens q { queen with hive := some i }) q
          { queen with hive := none },
        hives := aput (aput s.hives i { hive with queen := some q }) i
          { hive with queen := none } } = .error (.jsError msgNotAssociated) := by
      unfold removeQueen verifyBeekeeper
      rw [show aget (aput (aput s.hives i { hive with queen := some q }) i
            { hive with queen := none }) i =
            some { hive with queen := none } from aget_aput_self _ _ _]
      simp [hbk]
    have h2 : removeRouteStatus (JsErr.jsError msgNotAssociated) = some 403 := by
      decide
    unfold removeRoute
    rw [h1]
    simp [h2]

/-- Witness for `C4_removal_symmetry`: assign queen 55 to hive 201,
remove it again, and observe the second removal is rejected. -/
theorem C4_removal_symmetry_witness :
    ∃ s1 s2, assignQueen bkA 201 55 exStore = .ok s1 ∧
      removeQueen bkA 201 55 s1 = .ok s2 ∧
      aget s2.hives 201 = some { hiveA none with queen := none } ∧
      aget s2.queens 55 = some { queenU none with hive := none } ∧
      removeQueen bkA 201 55 s2 = .error (.jsError msgNotAssociated) ∧
      removeRoute bkA 201 55 s2 = (some 403, s2) :=
  C4_removal_symmetry (by decide) (by decide) (by decide) (by decide)

/-- C5: cascade detach on hive deletion — the code fails the claim at
this input.  Beekeeper A's hive 201 holds queen 55 and queen 55 points
back at hive 201.  `DELETE /hives/201` deletes the hive and reports
success, but the detach is fired without being awaited and sits behind
its own `verifyJwt` round-trip, so it runs only after the delete RPC:
it reloads the missing hive and dies with
`Error('Hive and/or queen not found')` (last conjunct), the queens
table is never written, and reading queen 55 afterwards still yields a
hive link of 201 — a dangling reference to the deleted hive, where the
claim (and the code's own comment, part_001:639) requires the queen's
hive reference to be cleared first. -/
theorem C5_cascade_detach_bug :
    deleteHive bkA 201 c5Store = .ok c5StoreAfter ∧
    aget c5StoreAfter.hives 201 = none ∧
    getQueen 55 c5StoreAfter = .ok (queenU (some 201)) ∧
    c5StoreAfter.queens = c5Store.queens ∧
    removeQueen bkA 201 55 c5StoreAfter = .error (.jsError msgNotFoundHQ) :=
  ⟨by decide, by decide, by decide, by decide, by decide⟩

/-- C6: ownership-scoped authorization.  The hive-access check returns
not-found when the hive is absent, forbidden (HTTP 403 per the route's
catch table) when the stored owner differs from the caller, and the
hive itself for the owner; and every single-hive read and mutation —
get, put, patch, delete, assign, remove — begins with this check and
propagates its failure unchanged, so a non-owner request never reads or
mutates the hive while the owner always passes the check. -/
theorem C6_ownership_authorization (bk : String) (i : Nat) (s : Store)
    (hive : HiveE) (n t : String) (c : Int) (n2 t2 : Option String)
    (c2 : Option Int) (q : Nat) :
    (aget s.hives i = none →
      verifyBeekeeper bk i s = .error (.jsError msgNotFoundHQ)) ∧
    (aget s.hives i = some hive → hive.beekeeper ≠ bk →
      verifyBeekeeper bk i s = .error (.jsError msgDifferentOwner) ∧
      getHiveRouteStatus (.jsError msgDifferentOwner) = some 403) ∧
    (aget s.hives i = some hive → hive.beekeeper = bk →
      verifyBeekeeper bk i s = .ok hive) ∧
    (∀ e, verifyBeekeeper bk i s = .error e →
      getHive bk i s = .error e ∧
      putHive bk i n t c s = .error e ∧
      patchHive bk i n2 t2 c2 s = .error e ∧
      deleteHive bk i s = .error e ∧
      assignQueen bk i q s = .error e ∧
      removeQueen bk i q s = .error e) := by
  refine ⟨?_, ?_, ?_, ?_⟩
  · intro h
    unfold verifyBeekeeper
    rw [h]
  · intro h hb
    refine ⟨?_, by decide⟩
    unfold verifyBeekeeper
    rw [h]
    simp [hb]
  · intro h hb
    exact verifyBeekeeper_ok.mpr ⟨h, hb⟩
  · intro e he
    refine ⟨?_, ?_, ?_, ?_, ?_, ?_⟩
    · unfold getHive; rw [he]
    · unfold putHive; rw [he]
    · unfold patchHive; rw [he]
    · unfold deleteHive; rw [he]
    · unfold assignQueen; rw [he]
    · unfold removeQueen; rw [he]

/-- Witness for `C6_ownership_authorization`: owner A passes the check
on hive 201, non-owner B gets the forbidden error (and it propagates to
the single-hive read), and a missing hive gets not-found. -/
theorem C6_ownership_authorization_witness :
    verifyBeekeeper bkA 201 exStore = .ok (hiveA none) ∧
    verifyBeekeeper bkB 201 exStore = .error (.jsError msgDifferentOwner) ∧
    getHive bkB 201 exStore = .error (.jsError msgDifferentOwner) ∧
    verifyBeekeeper bkA 999 exStore = .error (.jsError msgNotFoundHQ) := by
  have hB := ((C6_ownership_authorization bkB 201 exStore (hiveA none)
    nameNorth typeLongBox 0 none none none 55).2.1 (by decide) (by decide)).1
  refine ⟨?_, hB, ?_, ?_⟩
  · exact (C6_ownership_authorization bkA 201 exStore (hiveA none)
      nameNorth typeLongBox 0 none none none 55).2.2.1 (by decide) (by decide)
  · exact ((C6_ownership_authorization bkB 201 exStore (hiveA none)
      nameNorth typeLongBox 0 none none none 55).2.2.2 _ hB).1
  · exact (C6_ownership_authorization bkA 999 exStore (hiveA none)
      nameNorth typeLongBox 0 none none none 55).1 (by decide)

/-- C7: pagination.  On a store where beekeeper A owns twelve hives the
listing reports `total = 12`, returns five items, and advertises a next
link — but the handler never reads the request's cursor (no
`.start(cursor)` is ever applied to the paginated query), so requesting
the next page with the advertised cursor returns exactly the same first
five items and the advertised three-page traversal (5, 5, 2) can never
reach the remaining seven hives.  The queens listing faults outright:
its total computation calls `queens[0].length()`. -/
theorem C7_pagination_bug :
    (getHives bkA none pagedStore).total = 12 ∧
    (getHives bkA none pagedStore).hives.length = 5 ∧
    (getHives bkA none pagedStore).nextLink = true ∧
    getHives bkA (some cursorPageOne) pagedStore =
      getHives bkA none pagedStore ∧
    (getHives bkA (some cursorPageOne) pagedStore).hives.length ≠
      (getHives bkA none pagedStore).total ∧
    getQueens (some cursorPageOne) pagedStore =
      .error (.typeErr msgLengthNotFunction) :=
  ⟨by decide, by decide, by decide, rfl, by decide, rfl⟩

/-- C8: PUT frame condition.  A full-replace update of an owned hive
with validated name and structure type succeeds and replaces exactly
those three attributes: the stored hive keeps its owner and its queen
link, the queens table is untouched, and every other hive is
unchanged. -/
theorem C8_put_frame {s : Store} {bk : String} {i : Nat} {hive : HiveE}
    (n t : String) (c : Int)
    (hh : aget s.hives i = some hive) (hbk : hive.beekeeper = bk)
    (hn : verifyAttribute n = .ok ()) (ht : verifyAttribute t = .ok ()) :
    ∃ s2, putHive bk i n t c s = .ok s2 ∧
      aget s2.hives i = some
        { hiveName := n, structureType := t, colonySize := c,
          beekeeper := hive.beekeeper, queen := hive.queen } ∧
      s2.queens = s.queens ∧
      ∀ j, j ≠ i → aget s2.hives j = aget s.hives j := by
  have hvb : verifyBeekeeper bk i s = .ok hive := verifyBeekeeper_ok.mpr ⟨hh, hbk⟩
  refine ⟨{ s with hives := aput s.hives i (
      { hiveName := n, structureType := t, colonySize := c,
        beekeeper := bk, queen := hive.queen }) }, ?_, ?_, rfl, ?_⟩
  · unfold putHive
    rw [hvb, hn, ht]
  · rw [show aget (aput s.hives i (
        { hiveName := n, structureType := t, colonySize := c,
          beekeeper := bk, queen := hive.queen } : HiveE)) i =
        some { hiveName := n, structureType := t, colonySize := c,
               beekeeper := bk, queen := hive.queen } from aget_aput_self _ _ _]
    rw [hbk]
  · intro j hj
    exact aget_aput_ne _ _ _ _ hj

/-- Witness for `C8_put_frame`: replacing the attributes of hive 201
keeps its owner and (null) queen link and leaves hive 202 and the
queens alone. -/
theorem C8_put_frame_witness :
    ∃ s2, putHive bkA 201 nameApiaryGood typeLongBox 123 exStore = .ok s2 ∧
      aget s2.hives 201 = some
        { hiveName := nameApiaryGood, structureType := typeLongBox,
          colonySize := 123, beekeeper := (hiveA none).beekeeper,
          queen := (hiveA none).queen } ∧
      s2.queens = exStore.queens ∧
      ∀ j, j ≠ 201 → aget s2.hives j = aget exStore.hives j :=
  C8_put_frame nameApiaryGood typeLongBox 123 (by decide) (by decide)
    (by decide) (by decide)

theorem regexCharClass_iff (ch : Char) :
    regexCharClass ch = true ↔
      ((('A' : Char) ≤ ch ∧ ch ≤ ('Z' : Char)) ∨
       (('a' : Char) ≤ ch ∧ ch ≤ ('z' : Char)) ∨
       (('0' : Char) ≤ ch ∧ ch ≤ ('9' : Char)) ∨ ch = (' ' : Char)) := by
  unfold regexCharClass
  simp [Bool.or_eq_true, Bool.and_eq_true, decide_eq_true_eq]
  tauto

/-- C9: attribute validation.  The validator accepts exactly the
non-empty strings whose characters all lie in the regex's ranges
`A`-`Z`, `a`-`z`, `0`-`9` or are the space; every other string
(including the empty string) is rejected with
`Error('invalid characters')`.  Creating a hive named `Apiary#1`
therefore answers HTTP 400 with the store untouched, while `Apiary 1`
is accepted and saved. -/
theorem C9_attribute_validation :
    (∀ a : String, verifyAttribute a = .ok () ↔
      (a ≠ "" ∧ ∀ ch ∈ a.toList,
        ((('A' : Char) ≤ ch ∧ ch ≤ ('Z' : Char)) ∨
         (('a' : Char) ≤ ch ∧ ch ≤ ('z' : Char)) ∨
         (('0' : Char) ≤ ch ∧ ch ≤ ('9' : Char)) ∨ ch = (' ' : Char)))) ∧
    (∀ a : String, verifyAttribute a ≠ .ok () →
      verifyAttribute a = .error (.jsError msgInvalidChars)) ∧
    (∀ bk t c s, createHiveRoute bk nameApiaryBad t c s = (some 400, s)) ∧
    (∀ bk c s, ∃ r, createHive bk nameApiaryGood typeLongBox c s = .ok r) := by
  have hbridge : ∀ a : String, regexTestValid a = true ↔
      (a ≠ "" ∧ ∀ ch ∈ a.toList,
        ((('A' : Char) ≤ ch ∧ ch ≤ ('Z' : Char)) ∨
         (('a' : Char) ≤ ch ∧ ch ≤ ('z' : Char)) ∨
         (('0' : Char) ≤ ch ∧ ch ≤ ('9' : Char)) ∨ ch = (' ' : Char))) := by
    intro a
    unfold regexTestValid
    rw [Bool.and_eq_true, List.all_eq_true]
    constructor
    · intro ⟨h1, h2⟩
      refine ⟨?_, fun ch hch => (regexCharClass_iff ch).mp (h2 ch hch)⟩
      intro he
      rw [he] at h1
      exact absurd h1 (by decide)
    · intro ⟨h1, h2⟩
      refine ⟨?_, fun ch hch => (regexCharClass_iff ch).mpr (h2 ch hch)⟩
      cases hemp : a.isEmpty
      · rfl
      · exact absurd ((String.isEmpty_iff a).mp hemp) h1
  refine ⟨?_, ?_, ?_, ?_⟩
  · intro a
    unfold verifyAttribute
    by_cases h : regexTestValid a = true
    · rw [if_pos h]
      have hr := (hbridge a).mp h
      simp
      exact ⟨hr.1, fun ch hch => hr.2 ch hch⟩
    · rw [if_neg h]
      constructor
      · intro habs
        exact Except.noConfusion habs
      · intro hc
        exact absurd ((hbridge a).mpr hc) h
  · intro a hne
    unfold verifyAttribute at hne ⊢
    by_cases h : regexTestValid a = true
    · rw [if_pos h] at hne
      exact absurd rfl hne
    · rw [if_neg h]
  · intro bk t c s
    have h1 : verifyAttribute nameApiaryBad = .error (.jsError msgInvalidChars) := by
      decide
    have h2 : createHiveRouteStatus (JsErr.jsError msgInvalidChars) = some 400 := by
      decide
    unfold createHiveRoute createHive
    rw [h1]
    simp [h2]
  · intro bk c s
    have h1 : verifyAttribute nameApiaryGood = .ok () := by decide
    have h2 : verifyAttribute typeLongBox = .ok () := by decide
    refine ⟨({ s with
        hives := aput s.hives s.nextHiveId
          { hiveName := nameApiaryGood, structureType := typeLongBox,
            colonySize := c, beekeeper := bk, queen := none },
        nextHiveId := s.nextHiveId + 1 }, s.nextHiveId), ?_⟩
    unfold createHive
    rw [h1, h2]

/-- Witness for `C9_attribute_validation`: the two concrete names from
the spec's test, one accepted, one rejected with 400. -/
theorem C9_attribute_validation_witness :
    verifyAttribute nameApiaryGood = .ok () ∧
    createHiveRoute bkA nameApiaryBad typeLongBox 7 exStore =
      (some 400, exStore) :=
  ⟨(C9_attribute_validation.1 nameApiaryGood).mpr (by decide),
   C9_attribute_validation.2.2.1 bkA typeLongBox 7 exStore⟩

/-- C10: the queens POST model function faults before any write.  For
every input, `createQueen` either throws `Error('invalid characters')`
synchronously (invalid name) or raises the TypeError from invoking
`.then` on the `undefined` returned by `verifyAttribute`; it never
returns a saved queen, so the handler's 201 branch is unreachable and
no queen entity is ever written by it. -/
theorem C10_createQueen_faults (name species : String) (age : Int)
    (s : Store) :
    createQueen name species age s =
      .error (if regexTestValid name = true then JsErr.typeErr msgThenOfUndefined
              else JsErr.jsError msgInvalidChars) ∧
    ∀ r, createQueen name species age s ≠ .ok r := by
  have h : createQueen name species age s =
      .error (if regexTestValid name = true then JsErr.typeErr msgThenOfUndefined
              else JsErr.jsError msgInvalidChars) := by
    unfold createQueen verifyAttribute
    by_cases hv : regexTestValid name = true
    · simp [hv, thenOfUndefined]
    · simp [hv]
  refine ⟨h, fun r hr => ?_⟩
  rw [h] at hr
  exact Except.noConfusion hr

/-- Witness for `C10_createQueen_faults`: a valid queen name still
faults with the TypeError, so nothing is saved. -/
theorem C10_createQueen_faults_witness :
    createQueen nameBee speciesApis 5 exStore =
      .error (.typeErr msgThenOfUndefined) := by
  rw [(C10_createQueen_faults nameBee speciesApis 5 exStore).1]
  decide

end BeeApi

